import Mathlib

/-!
Verification development for the marketing-campaign data-refresh pipeline
(`src/scripts/data_refresh.py`, class `MarketingDataRefresh`).

Numeric values are modelled as exact rationals (`ℚ`); Python's binary
floating point is treated as exact decimal arithmetic, and Python's
`round` (banker's rounding, round-half-to-even) is modelled exactly on
those rationals by `pyRound`.
-/

/-- Campaign row as selected by `refresh_campaign_data`'s SQL query over
`marketing_campaigns` (lines 110-129 of `data_refresh.py`). Dates and the
status column are opaque strings; all numeric columns are rationals. -/
structure CampaignRecord where
  campaign_id : String
  campaign_name : String
  campaign_type : String
  channel : String
  start_date : String
  end_date : String
  budget_allocated : ℚ
  total_spend : ℚ
  impressions : ℚ
  clicks : ℚ
  leads_generated : ℚ
  conversions : ℚ
  revenue_generated : ℚ
  status : String
deriving Repr, DecidableEq

/-- Round-half-to-even on rationals, the semantics of Python's built-in
`round` applied to an exactly represented value. -/
def roundHalfEven (x : ℚ) : ℤ :=
  let f := ⌊x⌋
  let frac := x - f
  if frac < 1/2 then f
  else if 1/2 < frac then f + 1
  else if f % 2 = 0 then f else f + 1

/-- Model of Python's `round(x, ndigits)` for `ndigits ≥ 0`. -/
def pyRound (x : ℚ) (ndigits : Nat) : ℚ :=
  (roundHalfEven (x * 10 ^ ndigits) : ℚ) / 10 ^ ndigits

/-- ROI as computed in `calculate_kpis` (line 221):
`((revenue_generated - total_spend) / total_spend * 100) if total_spend > 0 else 0`. -/
def roi (row : CampaignRecord) : ℚ :=
  if row.total_spend > 0 then
    (row.revenue_generated - row.total_spend) / row.total_spend * 100
  else 0

/-- Cost per lead as computed in `calculate_kpis` (line 224). -/
def cpl (row : CampaignRecord) : ℚ :=
  if row.leads_generated > 0 then row.total_spend / row.leads_generated else 0

/-- Cost per acquisition as computed in `calculate_kpis` (line 227). -/
def cpa (row : CampaignRecord) : ℚ :=
  if row.conversions > 0 then row.total_spend / row.conversions else 0

/-- Conversion rate as computed in `calculate_kpis` (line 230). -/
def conversionRate (row : CampaignRecord) : ℚ :=
  if row.leads_generated > 0 then row.conversions / row.leads_generated * 100 else 0

/-- Click-through rate as computed in `calculate_kpis` (line 233). -/
def ctr (row : CampaignRecord) : ℚ :=
  if row.impressions > 0 then row.clicks / row.impressions * 100 else 0

/-- KPI row as appended to `kpi_data` in `calculate_kpis` (lines 235-249).
The `last_updated` wall-clock timestamp is outside the pure model and is
omitted. -/
structure KpiRecord where
  campaign_id : String
  campaign_name : String
  channel : String
  roi_percentage : ℚ
  cost_per_lead : ℚ
  cost_per_acquisition : ℚ
  conversion_rate : ℚ
  click_through_rate : ℚ
  total_investment : ℚ
  total_revenue : ℚ
  net_profit : ℚ
  profitability_score : ℚ
deriving Repr, DecidableEq

/-- The dictionary built for one campaign row in the loop body of
`calculate_kpis` (lines 219-249): rounded metrics, pass-through financials,
and `profitability_score = min(10, max(0, roi / 30))` (line 247, applied to
the unrounded `roi` and itself unrounded). -/
def kpiOfCampaign (row : CampaignRecord) : KpiRecord :=
  { campaign_id := row.campaign_id
    campaign_name := row.campaign_name
    channel := row.channel
    roi_percentage := pyRound (roi row) 2
    cost_per_lead := pyRound (cpl row) 2
    cost_per_acquisition := pyRound (cpa row) 2
    conversion_rate := pyRound (conversionRate row) 2
    click_through_rate := pyRound (ctr row) 4
    total_investment := row.total_spend
    total_revenue := row.revenue_generated
    net_profit := row.revenue_generated - row.total_spend
    profitability_score := min 10 (max 0 (roi row / 30)) }

/-- The accumulation loop of `calculate_kpis` (lines 217-249): `kpi_data`
starts empty and each campaign row appends one KPI dictionary. -/
def calculateKpisLoop : List CampaignRecord → List KpiRecord → List KpiRecord
  | [], kpi_data => kpi_data
  | row :: rest, kpi_data => calculateKpisLoop rest (kpi_data ++ [kpiOfCampaign row])

/-- The pure transformation performed by `calculate_kpis` (lines 208-254)
on the campaign rows it reads: one KPI record per campaign row. -/
def calculate_kpis (campaign_data : List CampaignRecord) : List KpiRecord :=
  calculateKpisLoop campaign_data []

/-- Alert row as appended to `alerts` in `generate_alerts` (lines 282-324).
The code stores the triggering metric under a rule-specific key
(`current_roi`, `current_cpl`, `current_conversion`) as a formatted string;
here `current_value` carries the numeric payload of that field. -/
structure AlertRecord where
  type : String
  campaign_id : String
  campaign_name : String
  channel : String
  issue : String
  current_value : ℚ
  recommended_action : String
  priority : String
deriving Repr, DecidableEq

/-- Alert dictionary built for a negative-ROI campaign (lines 287-296). -/
def negativeRoiAlert (campaign : KpiRecord) : AlertRecord :=
  { type := "Critical"
    campaign_id := campaign.campaign_id
    campaign_name := campaign.campaign_name
    channel := campaign.channel
    issue := "Negative ROI"
    current_value := campaign.roi_percentage
    recommended_action := "Pause campaign and review targeting"
    priority := "High" }

/-- Alert dictionary built for a high cost-per-lead campaign (lines 301-310). -/
def highCplAlert (campaign : KpiRecord) : AlertRecord :=
  { type := "Warning"
    campaign_id := campaign.campaign_id
    campaign_name := campaign.campaign_name
    channel := campaign.channel
    issue := "High Cost Per Lead"
    current_value := campaign.cost_per_lead
    recommended_action := "Optimize targeting or reduce bid"
    priority := "Medium" }

/-- Alert dictionary built for a low conversion-rate campaign (lines 315-324). -/
def lowConversionAlert (campaign : KpiRecord) : AlertRecord :=
  { type := "Warning"
    campaign_id := campaign.campaign_id
    campaign_name := campaign.campaign_name
    channel := campaign.channel
    issue := "Low Conversion Rate"
    current_value := campaign.conversion_rate
    recommended_action := "Review landing page and offer"
    priority := "Medium" }

/-- One `for _, campaign in matched.iterrows(): alerts.append(...)` loop of
`generate_alerts`: appends `mk campaign` to `alerts` for each matched row. -/
def appendAlertsLoop (mk : KpiRecord → AlertRecord) :
    List KpiRecord → List AlertRecord → List AlertRecord
  | [], alerts => alerts
  | campaign :: rest, alerts => appendAlertsLoop mk rest (alerts ++ [mk campaign])

/-- The pure transformation performed by `generate_alerts` (lines 274-343)
on the KPI rows it reads: three pandas boolean filters, each followed by an
append loop over the matching rows in input order. -/
def generate_alerts (kpi_data : List KpiRecord) : List AlertRecord :=
  let alerts : List AlertRecord := []
  let alerts := appendAlertsLoop negativeRoiAlert
    (kpi_data.filter fun k => k.roi_percentage < 0) alerts
  let alerts := appendAlertsLoop highCplAlert
    (kpi_data.filter fun k => k.cost_per_lead > 100) alerts
  let alerts := appendAlertsLoop lowConversionAlert
    (kpi_data.filter fun k => k.conversion_rate < 5) alerts
  alerts

/-- Model of `send_alert_email` (lines 354-423). An empty alert list
returns `True` before any message is built (line 357-358). Otherwise the
message is handed to the SMTP transport; `transportOk` abstracts whether
that hand-off raises. The second component records whether a send was
attempted, making the no-op observable. -/
def send_alert_email (alerts : List AlertRecord) (transportOk : Bool) : Bool × Bool :=
  if alerts.isEmpty then (true, false)
  else if transportOk then (true, true) else (false, true)

/-- Status entry stored into `self.refresh_status[key]`: either
`{'status': 'success', ..., records}` or `{'status': 'error', ..., error}`.
The wall-clock timestamp is outside the pure model. -/
inductive StageStatus where
  | success (records : Nat)
  | error (detail : String)
deriving Repr, DecidableEq

/-- `self.refresh_status`, a Python dict keyed by stage name. Represented
as an association list with dict update semantics (overwrite in place,
new keys appended). -/
abbrev StatusMap := List (String × StageStatus)

/-- Dict assignment `m[key] = v`: overwrite an existing key in place,
append a new key at the end. -/
def setStatus : StatusMap → String → StageStatus → StatusMap
  | [], key, v => [(key, v)]
  | (k, w) :: rest, key, v =>
      if k = key then (key, v) :: rest else (k, w) :: setStatus rest key v

/-- Dict lookup `m.get(key)`. -/
def getStatus : StatusMap → String → Option StageStatus
  | [], _ => none
  | (k, w) :: rest, key => if k = key then some w else getStatus rest key

/-- Mutable state of a `MarketingDataRefresh` object: `self.engine`
(present or `None`) and `self.refresh_status`. `__init__` (lines 44-48)
sets `engine = None` and `refresh_status = {}`. -/
structure OrchestratorState where
  engine : Bool
  refresh_status : StatusMap
deriving Repr, DecidableEq

/-- State of a freshly constructed `MarketingDataRefresh` object. -/
def initState : OrchestratorState := { engine := false, refresh_status := [] }

/-- Outcome of the body of a stage once it is past any connection check:
the work either succeeds with a record count or raises with a message. -/
inductive StageOutcome where
  | success (records : Nat)
  | raise (detail : String)
deriving Repr, DecidableEq

/-- Status entry a stage records for an outcome: `success` records the
count, an exception records `{'status': 'error', 'error': str(e)}`. -/
def statusOfOutcome : StageOutcome → StageStatus
  | .success n => .success n
  | .raise e => .error e

/-- External world of one `full_refresh` run: whether each
`connect_database` attempt succeeds (`connectA` for the unconditional
connect in `refresh_campaign_data`, `connectB` for the conditional
reconnect in `refresh_budget_data`), and the outcome of each stage body. -/
structure RunEnv where
  connectA : Bool
  connectB : Bool
  campaignQuery : StageOutcome
  budgetQuery : StageOutcome
  kpiOutcome : StageOutcome
  alertOutcome : StageOutcome
deriving Repr, DecidableEq

/-- Shared try/record pattern: run the stage body, store the resulting
entry under `key`, return the stage's boolean result. -/
def recordStage (key : String) (out : StageOutcome) (s : OrchestratorState) :
    Bool × OrchestratorState :=
  match out with
  | .success n =>
      (true, { s with refresh_status := setStatus s.refresh_status key (.success n) })
  | .raise e =>
      (false, { s with refresh_status := setStatus s.refresh_status key (.error e) })

/-- `refresh_campaign_data` (lines 101-154): always calls
`connect_database`; on connection failure it returns `False` without
touching `refresh_status` (lines 104-105); otherwise the engine is set and
the query outcome is recorded under `'campaign_data'`. -/
def refresh_campaign_data (env : RunEnv) (s : OrchestratorState) :
    Bool × OrchestratorState :=
  if env.connectA then
    recordStage "campaign_data" env.campaignQuery { s with engine := true }
  else
    (false, s)

/-- `refresh_budget_data` (lines 156-206): reconnects only when
`self.engine` is unset (lines 159-161), again returning `False` with no
status write on connection failure; otherwise records the query outcome
under `'budget_data'`. -/
def refresh_budget_data (env : RunEnv) (s : OrchestratorState) :
    Bool × OrchestratorState :=
  if s.engine then
    recordStage "budget_data" env.budgetQuery s
  else if env.connectB then
    recordStage "budget_data" env.budgetQuery { s with engine := true }
  else
    (false, s)

/-- The try/record wrapper of `calculate_kpis` (lines 208-272), recording
under `'kpi_calculation'`. -/
def calculate_kpis_stage (env : RunEnv) (s : OrchestratorState) :
    Bool × OrchestratorState :=
  recordStage "kpi_calculation" env.kpiOutcome s

/-- The try/record wrapper of `generate_alerts` (lines 274-352), recording
under `'alerts'`. Email transport failure is swallowed inside
`send_alert_email` and cannot fail this stage. -/
def generate_alerts_stage (env : RunEnv) (s : OrchestratorState) :
    Bool × OrchestratorState :=
  recordStage "alerts" env.alertOutcome s

/-- `full_refresh` (lines 425-455): runs the four stages unconditionally
in order, counts successes, persists `refresh_status`, and returns
`success_count == 4`. -/
def full_refresh (env : RunEnv) (s : OrchestratorState) :
    Bool × OrchestratorState :=
  let p1 := refresh_campaign_data env s
  let p2 := refresh_budget_data env p1.2
  let p3 := calculate_kpis_stage env p2.2
  let p4 := generate_alerts_stage env p3.2
  let success_count : Nat :=
    (if p1.1 then 1 else 0) + (if p2.1 then 1 else 0) +
    (if p3.1 then 1 else 0) + (if p4.1 then 1 else 0)
  (success_count == 4, p4.2)

/-- The clamp operation as the specification words it:
`clamp(value, lo, hi)` keeps `value` inside `[lo, hi]`. -/
def clamp (value lo hi : ℚ) : ℚ := max lo (min hi value)

/-- Campaign row with the given financial and funnel numbers and fixed
identity columns, used for concrete test inputs. -/
def testCampaign (spend revenue impressions clicks leads conversions : ℚ) :
    CampaignRecord :=
  { campaign_id := "CAM-001"
    campaign_name := "Summer Sale"
    campaign_type := "Search"
    channel := "Google Ads"
    start_date := "2025-06-01"
    end_date := "2025-08-31"
    budget_allocated := 2000
    total_spend := spend
    impressions := impressions
    clicks := clicks
    leads_generated := leads
    conversions := conversions
    revenue_generated := revenue
    status := "Active" }

/-- KPI row with the given threshold-relevant metrics and fixed remaining
fields, used for concrete test inputs. -/
def testKpi (roiP cplV convR : ℚ) : KpiRecord :=
  { campaign_id := "CAM-002"
    campaign_name := "Winter Push"
    channel := "Facebook"
    roi_percentage := roiP
    cost_per_lead := cplV
    cost_per_acquisition := 0
    conversion_rate := convR
    click_through_rate := 0
    total_investment := 0
    total_revenue := 0
    net_profit := 0
    profitability_score := 0 }

lemma roundHalfEven_intCast (m : ℤ) : roundHalfEven (m : ℚ) = m := by
  unfold roundHalfEven
  norm_num [Int.floor_intCast]

lemma pyRound_idem (x : ℚ) (n : Nat) : pyRound (pyRound x n) n = pyRound x n := by
  unfold pyRound
  rw [div_mul_cancel₀ _ (by positivity : ((10 : ℚ) ^ n) ≠ 0), roundHalfEven_intCast]

lemma pyRound_zero (n : Nat) : pyRound 0 n = 0 := by
  have h := roundHalfEven_intCast 0
  simp only [Int.cast_zero] at h
  simp [pyRound, h]

lemma calculateKpisLoop_eq (cs : List CampaignRecord) (acc : List KpiRecord) :
    calculateKpisLoop cs acc = acc ++ cs.map kpiOfCampaign := by
  induction cs generalizing acc with
  | nil => simp [calculateKpisLoop]
  | cons row rest ih => simp [calculateKpisLoop, ih]

lemma calculate_kpis_eq_map (cs : List CampaignRecord) :
    calculate_kpis cs = cs.map kpiOfCampaign := by
  simp [calculate_kpis, calculateKpisLoop_eq]

lemma appendAlertsLoop_eq (mk : KpiRecord → AlertRecord)
    (l : List KpiRecord) (acc : List AlertRecord) :
    appendAlertsLoop mk l acc = acc ++ l.map mk := by
  induction l generalizing acc with
  | nil => simp [appendAlertsLoop]
  | cons campaign rest ih => simp [appendAlertsLoop, ih]

lemma generate_alerts_eq (kpis : List KpiRecord) :
    generate_alerts kpis =
      (kpis.filter fun r => r.roi_percentage < 0).map negativeRoiAlert ++
      ((kpis.filter fun r => r.cost_per_lead > 100).map highCplAlert ++
       (kpis.filter fun r => r.conversion_rate < 5).map lowConversionAlert) := by
  simp [generate_alerts, appendAlertsLoop_eq]

lemma getStatus_setStatus_self (m : StatusMap) (k : String) (v : StageStatus) :
    getStatus (setStatus m k v) k = some v := by
  induction m with
  | nil => simp [setStatus, getStatus]
  | cons p rest ih =>
      by_cases h : p.1 = k <;> simp [setStatus, getStatus, h, ih]

lemma getStatus_setStatus_ne (m : StatusMap) (k k' : String) (v : StageStatus)
    (h : k' ≠ k) : getStatus (setStatus m k v) k' = getStatus m k' := by
  induction m with
  | nil => simp [setStatus, getStatus, Ne.symm h]
  | cons p rest ih =>
      obtain ⟨pk, pv⟩ := p
      by_cases hp : pk = k
      · subst hp
        simp [setStatus, getStatus, Ne.symm h]
      · by_cases hp' : pk = k' <;> simp [setStatus, getStatus, hp, hp', h, ih]

/-- C1: the KPI Calculator computes roi, cost per lead, cost per
acquisition, conversion rate and click-through rate by the stated
formulas when the respective denominator is positive and as `0` when it
is not, computes `net_profit = revenue_generated - total_spend`, and on a
campaign with zero spend, leads, conversions and impressions every one of
these stored metrics is `0` with no division error. -/
theorem C1_kpi_formulas (c : CampaignRecord) :
    (0 < c.total_spend →
      roi c = (c.revenue_generated - c.total_spend) / c.total_spend * 100) ∧
    (c.total_spend ≤ 0 → roi c = 0) ∧
    (0 < c.leads_generated → cpl c = c.total_spend / c.leads_generated) ∧
    (c.leads_generated ≤ 0 → cpl c = 0) ∧
    (0 < c.conversions → cpa c = c.total_spend / c.conversions) ∧
    (c.conversions ≤ 0 → cpa c = 0) ∧
    (0 < c.leads_generated →
      conversionRate c = c.conversions / c.leads_generated * 100) ∧
    (c.leads_generated ≤ 0 → conversionRate c = 0) ∧
    (0 < c.impressions → ctr c = c.clicks / c.impressions * 100) ∧
    (c.impressions ≤ 0 → ctr c = 0) ∧
    (kpiOfCampaign c).net_profit = c.revenue_generated - c.total_spend ∧
    (c.total_spend = 0 → c.leads_generated = 0 → c.conversions = 0 →
      c.impressions = 0 →
      (kpiOfCampaign c).roi_percentage = 0 ∧
      (kpiOfCampaign c).cost_per_lead = 0 ∧
      (kpiOfCampaign c).cost_per_acquisition = 0 ∧
      (kpiOfCampaign c).conversion_rate = 0 ∧
      (kpiOfCampaign c).click_through_rate = 0) := by
  refine ⟨fun h => by simp [roi, h], fun h => by simp [roi, not_lt.mpr h],
    fun h => by simp [cpl, h], fun h => by simp [cpl, not_lt.mpr h],
    fun h => by simp [cpa, h], fun h => by simp [cpa, not_lt.mpr h],
    fun h => by simp [conversionRate, h],
    fun h => by simp [conversionRate, not_lt.mpr h],
    fun h => by simp [ctr, h], fun h => by simp [ctr, not_lt.mpr h],
    rfl, fun hs hl hv hi => ?_⟩
  simp [kpiOfCampaign, roi, cpl, cpa, conversionRate, ctr, hs, hl, hv, hi,
    pyRound_zero]

theorem C1_kpi_formulas_witness :
    roi (testCampaign 1000 500 10000 300 20 2) = (500 - 1000) / 1000 * 100 ∧
    ((kpiOfCampaign (testCampaign 0 500 0 0 0 0)).roi_percentage = 0 ∧
     (kpiOfCampaign (testCampaign 0 500 0 0 0 0)).cost_per_lead = 0 ∧
     (kpiOfCampaign (testCampaign 0 500 0 0 0 0)).cost_per_acquisition = 0 ∧
     (kpiOfCampaign (testCampaign 0 500 0 0 0 0)).conversion_rate = 0 ∧
     (kpiOfCampaign (testCampaign 0 500 0 0 0 0)).click_through_rate = 0) :=
  ⟨by
    have h := (C1_kpi_formulas (testCampaign 1000 500 10000 300 20 2)).1
      (by norm_num [testCampaign])
    simpa [testCampaign] using h,
   (C1_kpi_formulas
      (testCampaign 0 500 0 0 0 0)).2.2.2.2.2.2.2.2.2.2.2 rfl rfl rfl rfl⟩

/-- C6: the profitability score stored by the KPI Calculator is exactly
`clamp(roi / 30, 0, 10)` and therefore always lies in `[0, 10]`. -/
theorem C6_profitability_clamp (c : CampaignRecord) :
    (kpiOfCampaign c).profitability_score = clamp (roi c / 30) 0 10 ∧
    0 ≤ (kpiOfCampaign c).profitability_score ∧
    (kpiOfCampaign c).profitability_score ≤ 10 := by
  refine ⟨?_, ?_, ?_⟩
  · show min 10 (max 0 (roi c / 30)) = clamp (roi c / 30) 0 10
    rw [clamp, min_max_distrib_left]
    norm_num
  · show (0 : ℚ) ≤ min 10 (max 0 (roi c / 30))
    exact le_min (by norm_num) (le_max_left _ _)
  · show min (10 : ℚ) (max 0 (roi c / 30)) ≤ 10
    exact min_le_left _ _

/-- C7: the empty-input laws hold end to end: no campaigns yields no KPI
records, no KPI records yields no alerts, and the notifier on an empty
alert list is a no-op (no send attempted) returning success. -/
theorem C7_empty_input_laws :
    calculate_kpis [] = [] ∧ generate_alerts [] = [] ∧
    ∀ transportOk : Bool, send_alert_email [] transportOk = (true, false) :=
  ⟨rfl, rfl, fun _ => rfl⟩

/-- C8: the KPI Calculator emits exactly one record per campaign in input
order: the output length equals the input length and the i-th output is
derived from the i-th input. -/
theorem C8_one_to_one_order (cs : List CampaignRecord) :
    (calculate_kpis cs).length = cs.length ∧
    ∀ i : Nat, (calculate_kpis cs)[i]? = (cs[i]?).map kpiOfCampaign := by
  rw [calculate_kpis_eq_map]
  exact ⟨List.length_map _ _, fun i => List.getElem?_map _ _ _⟩

/-- C2: the Alert Evaluator's output is the concatenation of the
negative-ROI matches (in input order, as Critical "Negative ROI" alerts
with priority High and the pause-and-review action), then the
cost-per-lead > 100 matches (Warning "High Cost Per Lead", priority
Medium), then the conversion-rate < 5 matches (Warning "Low Conversion
Rate", priority Medium); the rules are independent, so a KPI record with
roi = -10, cost_per_lead = 150 and conversion_rate = 3 produces exactly
the three alerts, one per rule. -/
theorem C2_alert_rules (kpis : List KpiRecord) (k : KpiRecord) :
    generate_alerts kpis =
      (kpis.filter fun r => r.roi_percentage < 0).map negativeRoiAlert ++
      (kpis.filter fun r => r.cost_per_lead > 100).map highCplAlert ++
      (kpis.filter fun r => r.conversion_rate < 5).map lowConversionAlert ∧
    (negativeRoiAlert k).type = "Critical" ∧
    (negativeRoiAlert k).issue = "Negative ROI" ∧
    (negativeRoiAlert k).priority = "High" ∧
    (negativeRoiAlert k).recommended_action = "Pause campaign and review targeting" ∧
    (highCplAlert k).type = "Warning" ∧
    (highCplAlert k).issue = "High Cost Per Lead" ∧
    (highCplAlert k).priority = "Medium" ∧
    (lowConversionAlert k).type = "Warning" ∧
    (lowConversionAlert k).issue = "Low Conversion Rate" ∧
    (lowConversionAlert k).priority = "Medium" ∧
    (k.roi_percentage = -10 → k.cost_per_lead = 150 → k.conversion_rate = 3 →
      generate_alerts [k] =
        [negativeRoiAlert k, highCplAlert k, lowConversionAlert k]) := by
  refine ⟨by rw [generate_alerts_eq, List.append_assoc], rfl, rfl, rfl, rfl,
    rfl, rfl, rfl, rfl, rfl, rfl, fun h1 h2 h3 => ?_⟩
  rw [generate_alerts_eq]
  norm_num [List.filter_cons, h1, h2, h3]

theorem C2_alert_rules_witness :
    generate_alerts [testKpi (-10) 150 3] =
      [negativeRoiAlert (testKpi (-10) 150 3),
       highCplAlert (testKpi (-10) 150 3),
       lowConversionAlert (testKpi (-10) 150 3)] ∧
    (generate_alerts [testKpi (-10) 150 3]).length = 3 := by
  have h := (C2_alert_rules [] (testKpi (-10) 150 3)).2.2.2.2.2.2.2.2.2.2.2
    rfl rfl rfl
  exact ⟨h, by rw [h]; rfl⟩

lemma recordStage_engine (key : String) (out : StageOutcome) (s : OrchestratorState) :
    ((recordStage key out s).2).engine = s.engine := by
  cases out <;> rfl

lemma recordStage_status (key : String) (out : StageOutcome) (s : OrchestratorState) :
    ((recordStage key out s).2).refresh_status =
      setStatus s.refresh_status key (statusOfOutcome out) := by
  cases out <;> rfl

lemma full_refresh_status_eq (env : RunEnv) (s : OrchestratorState) :
    (full_refresh env s).2.refresh_status =
      setStatus (setStatus
        ((refresh_budget_data env (refresh_campaign_data env s).2).2.refresh_status)
        "kpi_calculation" (statusOfOutcome env.kpiOutcome))
        "alerts" (statusOfOutcome env.alertOutcome) := by
  simp only [full_refresh, calculate_kpis_stage, generate_alerts_stage,
    recordStage_status]

lemma campaign_engine_true (env : RunEnv) (s : OrchestratorState)
    (hA : env.connectA = true) :
    (refresh_campaign_data env s).2.engine = true := by
  simp [refresh_campaign_data, hA, recordStage_engine]

lemma campaign_status_eq (env : RunEnv) (s : OrchestratorState)
    (hA : env.connectA = true) :
    (refresh_campaign_data env s).2.refresh_status =
      setStatus s.refresh_status "campaign_data" (statusOfOutcome env.campaignQuery) := by
  simp [refresh_campaign_data, hA, recordStage_status]

lemma campaign_skip (env : RunEnv) (s : OrchestratorState)
    (hA : env.connectA = false) :
    (refresh_campaign_data env s).2 = s := by
  simp [refresh_campaign_data, hA]

lemma budget_status_eq_of_engine (env : RunEnv) (s : OrchestratorState)
    (he : s.engine = true) :
    (refresh_budget_data env s).2.refresh_status =
      setStatus s.refresh_status "budget_data" (statusOfOutcome env.budgetQuery) := by
  simp [refresh_budget_data, he, recordStage_status]

lemma budget_keeps_other (env : RunEnv) (s : OrchestratorState) (k : String)
    (hk : k ≠ "budget_data") :
    getStatus (refresh_budget_data env s).2.refresh_status k =
      getStatus s.refresh_status k := by
  unfold refresh_budget_data
  by_cases he : s.engine <;>
    by_cases hb : env.connectB <;>
      simp [he, hb, recordStage_status, getStatus_setStatus_ne _ _ _ _ hk]

/-- First run: connection succeeds and all four stages succeed. -/
def env1 : RunEnv :=
  { connectA := true, connectB := true,
    campaignQuery := .success 5, budgetQuery := .success 7,
    kpiOutcome := .success 5, alertOutcome := .success 2 }

/-- Second run on the same object: both connection attempts fail and
every stage body raises. -/
def env2 : RunEnv :=
  { connectA := false, connectB := false,
    campaignQuery := .success 9, budgetQuery := .raise "q",
    kpiOutcome := .raise "k", alertOutcome := .raise "a" }

/-- Run in which the budget stage succeeds and then the KPI stage raises
mid-computation. -/
def env5 : RunEnv :=
  { connectA := true, connectB := true,
    campaignQuery := .success 12, budgetQuery := .success 7,
    kpiOutcome := .raise "boom", alertOutcome := .success 0 }

/-- C3 as stated is false: the status map is never reset after
construction, and when a later run's campaign stage exits early on a
database-connection failure, the campaign entry recorded by an earlier
run of the same object survives into the later run's exported map. -/
theorem C3_counterexample :
    getStatus ((full_refresh env2 (full_refresh env1 initState).2).2.refresh_status)
        "campaign_data" = some (StageStatus.success 5) ∧
    (refresh_campaign_data env2 (full_refresh env1 initState).2).2.refresh_status
      = (full_refresh env1 initState).2.refresh_status := by
  constructor <;>
    simp [env1, env2, full_refresh, refresh_campaign_data, refresh_budget_data,
      calculate_kpis_stage, generate_alerts_stage, recordStage, initState,
      setStatus, getStatus, statusOfOutcome]

/-- C3 amended: the status map is initialized empty at construction but
not reset per run; when the run's initial database connection succeeds,
every one of the four stage keys in the exported map is the entry this
run recorded, and when it fails the campaign stage records nothing, so
the campaign entry is whatever the map already held before the run. -/
theorem C3_amended_no_reset (env : RunEnv) (s : OrchestratorState) :
    (env.connectA = true →
      getStatus (full_refresh env s).2.refresh_status "campaign_data"
          = some (statusOfOutcome env.campaignQuery) ∧
      getStatus (full_refresh env s).2.refresh_status "budget_data"
          = some (statusOfOutcome env.budgetQuery) ∧
      getStatus (full_refresh env s).2.refresh_status "kpi_calculation"
          = some (statusOfOutcome env.kpiOutcome) ∧
      getStatus (full_refresh env s).2.refresh_status "alerts"
          = some (statusOfOutcome env.alertOutcome)) ∧
    (env.connectA = false →
      getStatus (full_refresh env s).2.refresh_status "campaign_data"
          = getStatus s.refresh_status "campaign_data") := by
  constructor
  · intro hA
    have hb := budget_status_eq_of_engine env (refresh_campaign_data env s).2
      (campaign_engine_true env s hA)
    refine ⟨?_, ?_, ?_, ?_⟩
    · rw [full_refresh_status_eq,
        getStatus_setStatus_ne _ _ _ _ (by simp),
        getStatus_setStatus_ne _ _ _ _ (by simp), hb,
        getStatus_setStatus_ne _ _ _ _ (by simp),
        campaign_status_eq env s hA, getStatus_setStatus_self]
    · rw [full_refresh_status_eq,
        getStatus_setStatus_ne _ _ _ _ (by simp),
        getStatus_setStatus_ne _ _ _ _ (by simp), hb,
        getStatus_setStatus_self]
    · rw [full_refresh_status_eq,
        getStatus_setStatus_ne _ _ _ _ (by simp),
        getStatus_setStatus_self]
    · rw [full_refresh_status_eq, getStatus_setStatus_self]
  · intro hA
    rw [full_refresh_status_eq,
      getStatus_setStatus_ne _ _ _ _ (by simp),
      getStatus_setStatus_ne _ _ _ _ (by simp),
      budget_keeps_other env _ _ (by simp), campaign_skip env s hA]

theorem C3_amended_no_reset_witness :
    getStatus (full_refresh env1 initState).2.refresh_status "campaign_data"
      = some (StageStatus.success 5) :=
  ((C3_amended_no_reset env1 initState).1 rfl).1

lemma success_count_eq_four (b1 b2 b3 b4 : Bool) :
    (((if b1 then 1 else 0) + (if b2 then 1 else 0) + (if b3 then 1 else 0) +
      (if b4 then (1 : Nat) else 0)) == 4) = (b1 && b2 && b3 && b4) := by
  cases b1 <;> cases b2 <;> cases b3 <;> cases b4 <;> rfl

/-- C4: `full_refresh` returns true exactly when all four stage
operations — campaign refresh, budget refresh, KPI calculation, alert
generation — report success. -/
theorem C4_full_refresh_success (env : RunEnv) (s : OrchestratorState) :
    (full_refresh env s).1 =
      ((refresh_campaign_data env s).1 &&
       (refresh_budget_data env (refresh_campaign_data env s).2).1 &&
       (calculate_kpis_stage env
          (refresh_budget_data env (refresh_campaign_data env s).2).2).1 &&
       (generate_alerts_stage env
          (calculate_kpis_stage env
            (refresh_budget_data env (refresh_campaign_data env s).2).2).2).1) := by
  simp only [full_refresh]
  exact success_count_eq_four _ _ _ _

/-- C5: every stage is attempted regardless of earlier outcomes — the KPI
and alert entries of the final map always reflect this run's own
outcomes — and a KPI-stage exception does not disturb the budget stage's
prior success entry, which is still present in the final map. -/
theorem C5_stage_isolation (env : RunEnv) (s : OrchestratorState) :
    getStatus (full_refresh env s).2.refresh_status "kpi_calculation"
        = some (statusOfOutcome env.kpiOutcome) ∧
    getStatus (full_refresh env s).2.refresh_status "alerts"
        = some (statusOfOutcome env.alertOutcome) ∧
    (∀ n e, env.connectA = true → env.budgetQuery = StageOutcome.success n →
      env.kpiOutcome = StageOutcome.raise e →
      getStatus (full_refresh env s).2.refresh_status "budget_data"
          = some (StageStatus.success n)) := by
  refine ⟨?_, ?_, fun n e hA hB _ => ?_⟩
  · rw [full_refresh_status_eq, getStatus_setStatus_ne _ _ _ _ (by simp),
      getStatus_setStatus_self]
  · rw [full_refresh_status_eq, getStatus_setStatus_self]
  · rw [full_refresh_status_eq,
      getStatus_setStatus_ne _ _ _ _ (by simp),
      getStatus_setStatus_ne _ _ _ _ (by simp),
      budget_status_eq_of_engine env _ (campaign_engine_true env s hA), hB,
      getStatus_setStatus_self]
    rfl

theorem C5_stage_isolation_witness :
    getStatus (full_refresh env5 initState).2.refresh_status "budget_data"
      = some (StageStatus.success 7) :=
  (C5_stage_isolation env5 initState).2.2 7 "boom" rfl rfl rfl

/-- C9 as stated is false: `profitability_score` is not rounded to 2
decimal places — a campaign with spend 3 and revenue 4 stores the exact
score 10/9, which is not a 2-decimal value. -/
theorem C9_counterexample :
    (kpiOfCampaign (testCampaign 3 4 0 0 0 0)).profitability_score = 10/9 ∧
    pyRound ((kpiOfCampaign (testCampaign 3 4 0 0 0 0)).profitability_score) 2
      ≠ (kpiOfCampaign (testCampaign 3 4 0 0 0 0)).profitability_score := by
  have h : (kpiOfCampaign (testCampaign 3 4 0 0 0 0)).profitability_score = 10/9 := by
    show min 10 (max 0 (roi (testCampaign 3 4 0 0 0 0) / 30)) = 10/9
    norm_num [roi, testCampaign, min_def, max_def]
  refine ⟨h, ?_⟩
  rw [h]
  norm_num [pyRound, roundHalfEven]

/-- C9 amended: roi_percentage, cost_per_lead, cost_per_acquisition and
conversion_rate are rounded to 2 decimal places and click_through_rate to
4 (each is a fixed point of rounding at that precision), while
profitability_score is stored unrounded as the exact clamped ratio. -/
theorem C9_amended_rounding (c : CampaignRecord) :
    pyRound ((kpiOfCampaign c).roi_percentage) 2 = (kpiOfCampaign c).roi_percentage ∧
    pyRound ((kpiOfCampaign c).cost_per_lead) 2 = (kpiOfCampaign c).cost_per_lead ∧
    pyRound ((kpiOfCampaign c).cost_per_acquisition) 2
      = (kpiOfCampaign c).cost_per_acquisition ∧
    pyRound ((kpiOfCampaign c).conversion_rate) 2 = (kpiOfCampaign c).conversion_rate ∧
    pyRound ((kpiOfCampaign c).click_through_rate) 4
      = (kpiOfCampaign c).click_through_rate ∧
    (kpiOfCampaign c).profitability_score = min 10 (max 0 (roi c / 30)) :=
  ⟨pyRound_idem (roi c) 2, pyRound_idem (cpl c) 2, pyRound_idem (cpa c) 2,
   pyRound_idem (conversionRate c) 2, pyRound_idem (ctr c) 4, rfl⟩

/-- Campaign whose true ROI is -0.000001 percent: spend 1000000, revenue
999999.99. -/
def lowRoiCampaign : CampaignRecord := testCampaign 1000000 (99999999/100) 0 0 0 0

/-- C10: alert thresholds see the rounded stored KPI values — this
campaign's raw ROI is strictly negative (and above -0.005, so it rounds
to 0.00), its stored roi_percentage is 0, and the pipeline emits no
Critical alert and no "Negative ROI" alert for it. -/
theorem C10_rounding_masks_negative_roi :
    roi lowRoiCampaign < 0 ∧
    -(1/200) < roi lowRoiCampaign ∧
    (kpiOfCampaign lowRoiCampaign).roi_percentage = 0 ∧
    ((generate_alerts (calculate_kpis [lowRoiCampaign])).filter
        fun a => a.type = "Critical") = [] ∧
    ((generate_alerts (calculate_kpis [lowRoiCampaign])).filter
        fun a => a.issue = "Negative ROI") = [] := by
  have hroi : roi lowRoiCampaign = -(1/1000000) := by
    norm_num [roi, lowRoiCampaign, testCampaign]
  have hfield : (kpiOfCampaign lowRoiCampaign).roi_percentage = 0 := by
    show pyRound (roi lowRoiCampaign) 2 = 0
    rw [hroi]
    norm_num [pyRound, roundHalfEven]
  have hcpl : (kpiOfCampaign lowRoiCampaign).cost_per_lead = 0 := by
    show pyRound (cpl lowRoiCampaign) 2 = 0
    norm_num [cpl, lowRoiCampaign, testCampaign, pyRound_zero]
  have hconv : (kpiOfCampaign lowRoiCampaign).conversion_rate = 0 := by
    show pyRound (conversionRate lowRoiCampaign) 2 = 0
    norm_num [conversionRate, lowRoiCampaign, testCampaign, pyRound_zero]
  have halerts : generate_alerts (calculate_kpis [lowRoiCampaign]) =
      [lowConversionAlert (kpiOfCampaign lowRoiCampaign)] := by
    rw [calculate_kpis_eq_map]
    simp only [List.map_cons, List.map_nil]
    rw [generate_alerts_eq]
    norm_num [List.filter_cons, hfield, hcpl, hconv]
  refine ⟨by rw [hroi]; norm_num, by rw [hroi]; norm_num, hfield, ?_, ?_⟩ <;>
    · rw [halerts]
      simp [lowConversionAlert, List.filter_cons]
